import Mathlib

/-!
Shallow embedding of the shopping-list manager's core subsystems:
the SQLite migration schema (database service), the shopping-lists and
shopping-items CRUD services, the settings service, and the reactive
cache layer of the `useShoppingItems` hook.

Conventions of the embedding:
* The SQLite store is a pure `DBState` (row lists plus the singleton
  settings row); `INSERT` appends a row, `UPDATE ... WHERE id = ?` maps
  over the rows, `SELECT ... WHERE` filters, `ORDER BY` sorts.
* `Date.now()` and `generateUUID()` are nondeterministic in the source;
  each operation takes the produced timestamp / fresh id as an explicit
  parameter.
* JavaScript exceptions become `Except ServiceError`; an operation that
  can write returns the (possibly unchanged) store next to its result.
* String lengths are counted in characters.
-/

namespace ShoppingApp

/-- Whitespace characters removed by JavaScript `String.prototype.trim`
(the ASCII ones plus no-break space and the BOM). -/
def isJsWhitespace (c : Char) : Bool :=
  c = ' ' || c = '\t' || c = '\n' || c = '\r' ||
  c = '\x0b' || c = '\x0c' || c = ' ' || c = '﻿'

/-- JavaScript `s.trim()`: remove leading and trailing whitespace. -/
def jsTrim (s : String) : String :=
  ⟨((s.data.dropWhile isJsWhitespace).reverse.dropWhile isJsWhitespace).reverse⟩

/-- Row of the `shopping_lists` table / `ShoppingList` entity. -/
structure ShoppingList where
  id : String
  name : String
  createdAt : Nat
  updatedAt : Nat
deriving DecidableEq, Repr

/-- Row of the `shopping_items` table / `ShoppingItem` entity. -/
structure ShoppingItem where
  id : String
  listId : String
  text : String
  completed : Bool
  createdAt : Nat
  updatedAt : Nat
deriving DecidableEq, Repr

/-- The `CustomColors` record of the settings types (all fields optional). -/
structure CustomColors where
  completedColor : Option String
  accentColor : Option String
  textColor : Option String
  backgroundColor : Option String
  cardColor : Option String
deriving DecidableEq, Repr

/-- Row of the singleton `app_settings` table / `AppSettings` entity.
`themeId` is kept as a string; the source's `ThemePresetId` union uses
the literal "custom" as the override sentinel and "default" as default. -/
structure AppSettings where
  id : Nat
  themeId : String
  customColors : Option CustomColors
  createdAt : Nat
  updatedAt : Nat
deriving DecidableEq, Repr

/-- The persisted store: the two entity tables plus the singleton
settings row (`none` before migration V3 has inserted it). -/
structure DBState where
  lists : List ShoppingList
  items : List ShoppingItem
  settings : Option AppSettings
deriving DecidableEq, Repr

/-- The three service error classes of `types/service-errors`. -/
inductive ServiceError where
  | validationError (message field value : String)
  | notFoundError (message entity id : String)
  | databaseError (message : String)
deriving DecidableEq, Repr

namespace ShoppingListsService

/-- `validateListName` of `shopping-lists.service.ts`: trim, substitute
the default literal when empty and `allowDefault` is set, reject empty
otherwise, reject names longer than 100 characters. -/
def validateListName (name : String) (allowDefault : Bool) : Except ServiceError String :=
  let trimmed := jsTrim name
  if trimmed.length = 0 then
    if allowDefault then Except.ok "Shopping List"
    else Except.error (.validationError "List name cannot be empty" "name" name)
  else if trimmed.length > 100 then
    Except.error (.validationError "List name cannot exceed 100 characters" "name" name)
  else
    Except.ok trimmed

/-- `getAll`: `SELECT * FROM shopping_lists ORDER BY created_at DESC`. -/
def getAll (st : DBState) : List ShoppingList :=
  st.lists.mergeSort (fun a b => decide (b.createdAt ≤ a.createdAt))

/-- `getById`: `SELECT * FROM shopping_lists WHERE id = ?`, `none` when absent. -/
def getById (st : DBState) (id : String) : Option ShoppingList :=
  st.lists.find? (fun l => l.id == id)

/-- `create`: validate with `allowDefault = true`, then insert a fresh row. -/
def create (st : DBState) (name : String) (newId : String) (now : Nat) :
    Except ServiceError ShoppingList × DBState :=
  match validateListName name true with
  | .error e => (.error e, st)
  | .ok nm =>
    let newList : ShoppingList := { id := newId, name := nm, createdAt := now, updatedAt := now }
    (.ok newList, { st with lists := st.lists ++ [newList] })

/-- `update`: validate with `allowDefault = false`, then check existence,
then `UPDATE shopping_lists SET name = ?, updated_at = ? WHERE id = ?`. -/
def update (st : DBState) (id : String) (name : String) (now : Nat) :
    Except ServiceError ShoppingList × DBState :=
  match validateListName name false with
  | .error e => (.error e, st)
  | .ok nm =>
    match getById st id with
    | none => (.error (.notFoundError ("Shopping list not found: " ++ id) "ShoppingList" id), st)
    | some existing =>
      (.ok { existing with name := nm, updatedAt := now },
       { st with lists :=
          st.lists.map (fun l => if l.id == id then { l with name := nm, updatedAt := now } else l) })

/-- `deleteList`: check existence, then `DELETE FROM shopping_lists WHERE id = ?`
(the store-level cascade also removes the owned items). -/
def deleteList (st : DBState) (id : String) : Except ServiceError Unit × DBState :=
  match getById st id with
  | none => (.error (.notFoundError ("Shopping list not found: " ++ id) "ShoppingList" id), st)
  | some _ =>
    (.ok (),
     { st with lists := st.lists.filter (fun l => l.id != id),
               items := st.items.filter (fun it => it.listId != id) })

/-- `count`: `SELECT COUNT(*) FROM shopping_lists`. -/
def count (st : DBState) : Nat :=
  st.lists.length

end ShoppingListsService

namespace ShoppingItemsService

/-- `validateItemText` of `shopping-items.service.ts`: trim, reject empty
after trim, reject texts longer than 500 characters. -/
def validateItemText (text : String) : Except ServiceError String :=
  let trimmed := jsTrim text
  if trimmed.length = 0 then
    Except.error (.validationError "Item text cannot be empty" "text" text)
  else if trimmed.length > 500 then
    Except.error (.validationError "Item text cannot exceed 500 characters" "text" text)
  else
    Except.ok trimmed

/-- `getByListId`:
`SELECT * FROM shopping_items WHERE list_id = ? ORDER BY created_at ASC`. -/
def getByListId (st : DBState) (listId : String) : List ShoppingItem :=
  (st.items.filter (fun it => it.listId == listId)).mergeSort
    (fun a b => decide (a.createdAt ≤ b.createdAt))

/-- `getById`: `SELECT * FROM shopping_items WHERE id = ?`, `none` when absent. -/
def getById (st : DBState) (id : String) : Option ShoppingItem :=
  st.items.find? (fun it => it.id == id)

/-- `create`: validate the text, then check the parent list exists
(`SELECT COUNT(*) FROM shopping_lists WHERE id = ?`), then insert a fresh
row with `completed = false`. -/
def create (st : DBState) (listId : String) (text : String) (newId : String) (now : Nat) :
    Except ServiceError ShoppingItem × DBState :=
  match validateItemText text with
  | .error e => (.error e, st)
  | .ok validatedText =>
    if (st.lists.filter (fun l => l.id == listId)).length = 0 then
      (.error (.notFoundError "Shopping list not found" "listId" listId), st)
    else
      let newItem : ShoppingItem :=
        { id := newId, listId := listId, text := validatedText, completed := false,
          createdAt := now, updatedAt := now }
      (.ok newItem, { st with items := st.items ++ [newItem] })

/-- `update`: validate the text, then check existence, then
`UPDATE shopping_items SET text = ?, updated_at = ? WHERE id = ?`. -/
def update (st : DBState) (id : String) (text : String) (now : Nat) :
    Except ServiceError ShoppingItem × DBState :=
  match validateItemText text with
  | .error e => (.error e, st)
  | .ok validatedText =>
    match getById st id with
    | none => (.error (.notFoundError "Shopping item not found" "id" id), st)
    | some existingItem =>
      (.ok { existingItem with text := validatedText, updatedAt := now },
       { st with items :=
          st.items.map (fun it =>
            if it.id == id then { it with text := validatedText, updatedAt := now } else it) })

/-- `copy`: fetch the source item ("not found" when absent), then insert a
fresh row with the source's `listId`, `text` and `completed` and fresh
id / timestamps. -/
def copy (st : DBState) (id : String) (newId : String) (now : Nat) :
    Except ServiceError ShoppingItem × DBState :=
  match getById st id with
  | none => (.error (.notFoundError "Shopping item not found" "id" id), st)
  | some sourceItem =>
    let copiedItem : ShoppingItem :=
      { id := newId, listId := sourceItem.listId, text := sourceItem.text,
        completed := sourceItem.completed, createdAt := now, updatedAt := now }
    (.ok copiedItem, { st with items := st.items ++ [copiedItem] })

/-- `toggleComplete`: fetch the current item ("not found" when absent),
then `UPDATE shopping_items SET completed = ?, updated_at = ? WHERE id = ?`
with the negated flag. -/
def toggleComplete (st : DBState) (id : String) (now : Nat) :
    Except ServiceError ShoppingItem × DBState :=
  match getById st id with
  | none => (.error (.notFoundError "Shopping item not found" "id" id), st)
  | some existingItem =>
    let newCompleted := !existingItem.completed
    (.ok { existingItem with completed := newCompleted, updatedAt := now },
     { st with items :=
        st.items.map (fun it =>
          if it.id == id then { it with completed := newCompleted, updatedAt := now } else it) })

/-- `deleteItem`: check existence, then `DELETE FROM shopping_items WHERE id = ?`. -/
def deleteItem (st : DBState) (id : String) : Except ServiceError Unit × DBState :=
  match getById st id with
  | none => (.error (.notFoundError "Shopping item not found" "id" id), st)
  | some _ =>
    (.ok (), { st with items := st.items.filter (fun it => it.id != id) })

/-- `countByListId`: `SELECT COUNT(*) FROM shopping_items WHERE list_id = ?`. -/
def countByListId (st : DBState) (listId : String) : Nat :=
  (st.items.filter (fun it => it.listId == listId)).length

end ShoppingItemsService

namespace SettingsService

/-- `getSettings`: `SELECT * FROM app_settings WHERE id = 1`; an absent row
is a corrupted-state condition raised as a `DatabaseError`. -/
def getSettings (st : DBState) : Except ServiceError AppSettings :=
  match st.settings with
  | none => .error (.databaseError "Settings not found. Database may not be initialized properly.")
  | some s => .ok s

/-- `updateTheme`:
`UPDATE app_settings SET theme_id = ?, updated_at = ? WHERE id = 1`,
then return `getSettings` of the new store. `custom_colors` is untouched. -/
def updateTheme (st : DBState) (themeId : String) (now : Nat) :
    Except ServiceError AppSettings × DBState :=
  let updatedRow := st.settings.map (fun s => { s with themeId := themeId, updatedAt := now })
  let st2 := { st with settings := updatedRow }
  (getSettings st2, st2)

/-- `updateCustomColors`: `UPDATE app_settings SET theme_id = 'custom',
custom_colors = ?, updated_at = ? WHERE id = 1`, then `getSettings`. -/
def updateCustomColors (st : DBState) (colors : CustomColors) (now : Nat) :
    Except ServiceError AppSettings × DBState :=
  let updatedRow := st.settings.map (fun s =>
    { s with themeId := "custom", customColors := some colors, updatedAt := now })
  let st2 := { st with settings := updatedRow }
  (getSettings st2, st2)

/-- `resetToDefault`: `UPDATE app_settings SET theme_id = 'default',
custom_colors = NULL, updated_at = ? WHERE id = 1`, then `getSettings`. -/
def resetToDefault (st : DBState) (now : Nat) :
    Except ServiceError AppSettings × DBState :=
  let updatedRow := st.settings.map (fun s =>
    { s with themeId := "default", customColors := none, updatedAt := now })
  let st2 := { st with settings := updatedRow }
  (getSettings st2, st2)

end SettingsService

namespace UseShoppingItems

/-- One run of a mutating call of the `useShoppingItems` hook:
the cache (the `items` state) at the instant the service call is issued,
the outcome surfaced to the caller, and the cache after the call settled. -/
structure MutationRun (α : Type) where
  cacheAtServiceCall : List ShoppingItem
  result : Except ServiceError α
  cacheAfter : List ShoppingItem
deriving Repr

/-- The optimistic entry `createItem`'s `setItems` would have to install;
in the source the new item is appended to the previous items. -/
def appendItem (cache : List ShoppingItem) (newItem : ShoppingItem) : List ShoppingItem :=
  cache ++ [newItem]

/-- `createItem` of `use-shopping-items.ts`: the service `create` is
awaited first with the cache untouched; only on success is the returned
item appended; on failure the error is recorded and re-thrown. -/
def createItem (cache : List ShoppingItem) (svc : Except ServiceError ShoppingItem) :
    MutationRun ShoppingItem :=
  { cacheAtServiceCall := cache
    result := svc
    cacheAfter :=
      match svc with
      | .ok newItem => appendItem cache newItem
      | .error _ => cache }

/-- The optimistic text update of `updateItem`'s first `setItems`. -/
def applyOptimisticText (cache : List ShoppingItem) (id : String) (text : String)
    (nowOpt : Nat) : List ShoppingItem :=
  cache.map (fun item =>
    if item.id == id then { item with text := text, updatedAt := nowOpt } else item)

/-- `updateItem`: snapshot `previousItems`, apply the optimistic text
update, await the service; on success replace the matching entry with the
returned item, on failure restore the snapshot and re-throw. -/
def updateItem (cache : List ShoppingItem) (id : String) (text : String) (nowOpt : Nat)
    (svc : Except ServiceError ShoppingItem) : MutationRun ShoppingItem :=
  let optimistic := applyOptimisticText cache id text nowOpt
  { cacheAtServiceCall := optimistic
    result := svc
    cacheAfter :=
      match svc with
      | .ok updatedItem => optimistic.map (fun item => if item.id == id then updatedItem else item)
      | .error _ => cache }

/-- `copyItem`: the service `copy` is awaited first with the cache
untouched; only on success is the returned item spliced in right after
the source item (appended when the source is not in the cache). -/
def copyItem (cache : List ShoppingItem) (id : String)
    (svc : Except ServiceError ShoppingItem) : MutationRun ShoppingItem :=
  { cacheAtServiceCall := cache
    result := svc
    cacheAfter :=
      match svc with
      | .ok copiedItem =>
        match cache.findIdx? (fun item => item.id == id) with
        | none => cache ++ [copiedItem]
        | some sourceIndex =>
          cache.take (sourceIndex + 1) ++ [copiedItem] ++ cache.drop (sourceIndex + 1)
      | .error _ => cache }

/-- The optimistic flag flip of `toggleComplete`'s first `setItems`. -/
def applyOptimisticToggle (cache : List ShoppingItem) (id : String) (nowOpt : Nat) :
    List ShoppingItem :=
  cache.map (fun item =>
    if item.id == id then { item with completed := !item.completed, updatedAt := nowOpt }
    else item)

/-- `toggleComplete`: snapshot, flip the flag optimistically, await the
service; on success replace the matching entry with the returned item, on
failure restore the snapshot and re-throw. -/
def toggleComplete (cache : List ShoppingItem) (id : String) (nowOpt : Nat)
    (svc : Except ServiceError ShoppingItem) : MutationRun ShoppingItem :=
  let optimistic := applyOptimisticToggle cache id nowOpt
  { cacheAtServiceCall := optimistic
    result := svc
    cacheAfter :=
      match svc with
      | .ok updatedItem => optimistic.map (fun item => if item.id == id then updatedItem else item)
      | .error _ => cache }

/-- `deleteItem`: snapshot, remove the entry optimistically, await the
service; on success keep the filtered cache, on failure restore the
snapshot and re-throw. -/
def deleteItem (cache : List ShoppingItem) (id : String)
    (svc : Except ServiceError Unit) : MutationRun Unit :=
  let optimistic := cache.filter (fun item => item.id != id)
  { cacheAtServiceCall := optimistic
    result := svc
    cacheAfter :=
      match svc with
      | .ok _ => optimistic
      | .error _ => cache }

end UseShoppingItems

namespace DatabaseService

/-- One column of a `CREATE TABLE` statement: its name, whether it is
declared `NOT NULL`, and the inclusive length bounds of a
`CHECK(length(col) >= lo AND length(col) <= hi)` clause when one exists. -/
structure ColumnDef where
  name : String
  notNull : Bool
  lenCheck : Option (Nat × Nat)
deriving DecidableEq, Repr

/-- One table of a migration step. -/
structure TableDef where
  name : String
  columns : List ColumnDef
deriving DecidableEq, Repr

/-- One column of a `CREATE INDEX` statement with its sort direction. -/
structure IndexColumn where
  column : String
  descending : Bool
deriving DecidableEq, Repr

/-- One `CREATE INDEX` statement of a migration step. -/
structure IndexDef where
  name : String
  table : String
  columns : List IndexColumn
deriving DecidableEq, Repr

/-- The `shopping_lists` table exactly as created by `runMigrationV1` of
`database.service.ts`: every column `NOT NULL`, no `CHECK` clause on any
column. -/
def migrationV1ListsTable : TableDef :=
  { name := "shopping_lists"
    columns :=
      [ { name := "id", notNull := true, lenCheck := none },
        { name := "name", notNull := true, lenCheck := none },
        { name := "created_at", notNull := true, lenCheck := none },
        { name := "updated_at", notNull := true, lenCheck := none } ] }

/-- The `shopping_items` table exactly as created by `runMigrationV1`
(note: no `completed` column yet — V2 adds it — and no `CHECK` clause). -/
def migrationV1ItemsTable : TableDef :=
  { name := "shopping_items"
    columns :=
      [ { name := "id", notNull := true, lenCheck := none },
        { name := "list_id", notNull := true, lenCheck := none },
        { name := "text", notNull := true, lenCheck := none },
        { name := "created_at", notNull := true, lenCheck := none },
        { name := "updated_at", notNull := true, lenCheck := none } ] }

/-- The tables created by migration V1, in statement order. -/
def migrationV1Tables : List TableDef :=
  [migrationV1ListsTable, migrationV1ItemsTable]

/-- The indexes created by migration V1, in statement order. -/
def migrationV1Indexes : List IndexDef :=
  [ { name := "idx_lists_created", table := "shopping_lists",
      columns := [{ column := "created_at", descending := true }] },
    { name := "idx_items_list", table := "shopping_items",
      columns := [{ column := "list_id", descending := false },
                  { column := "created_at", descending := true }] } ]

/-- Look up a column of a table definition by name. -/
def tableColumn (t : TableDef) (colName : String) : Option ColumnDef :=
  t.columns.find? (fun c => c.name == colName)

/-- Whether the store accepts a text value for a column: SQLite enforces
only the declared constraints, so without a `CHECK` clause every string
is accepted. -/
def columnAcceptsText (c : ColumnDef) (s : String) : Bool :=
  match c.lenCheck with
  | none => true
  | some (lo, hi) => decide (lo ≤ s.length) && decide (s.length ≤ hi)

end DatabaseService

/-- A concrete item used to instantiate the theorems below. -/
def sampleItem : ShoppingItem :=
  { id := "item-1", listId := "list-1", text := "Milk", completed := false,
    createdAt := 0, updatedAt := 0 }

/-- A concrete list used to instantiate the theorems below. -/
def sampleList : ShoppingList :=
  { id := "list-1", name := "Groceries", createdAt := 0, updatedAt := 0 }

/-- A concrete store holding one list and one item. -/
def sampleState : DBState :=
  { lists := [sampleList], items := [sampleItem], settings := none }

/-- A concrete override color map. -/
def sampleColors : CustomColors :=
  { completedColor := some "#ff0000", accentColor := none, textColor := none,
    backgroundColor := none, cardColor := none }

/-- A concrete store whose settings row carries a non-null override map. -/
def overrideSettingsState : DBState :=
  { lists := [], items := [],
    settings := some { id := 1, themeId := "custom", customColors := some sampleColors,
                       createdAt := 0, updatedAt := 0 } }

/-- A concrete empty store. -/
def emptyState : DBState := { lists := [], items := [], settings := none }

/-- C2 counterexample: a successful `createItem` on an empty cache. The
cache at the instant the service call starts is still empty — the created
item is not in it — and the item is appended only after the service
returned, so the mutation is not applied optimistically before the call. -/
theorem createItem_not_optimistic_before_call :
    (UseShoppingItems.createItem [] (Except.ok sampleItem)).cacheAtServiceCall = [] ∧
    (UseShoppingItems.createItem [] (Except.ok sampleItem)).result = Except.ok sampleItem ∧
    (UseShoppingItems.createItem [] (Except.ok sampleItem)).cacheAfter = [sampleItem] ∧
    sampleItem ∉ (UseShoppingItems.createItem [] (Except.ok sampleItem)).cacheAtServiceCall := by
  refine ⟨rfl, rfl, rfl, ?_⟩
  simp [UseShoppingItems.createItem]

/-- C2 (amended): only `updateItem`, `toggleComplete` and `deleteItem`
apply the mutation to the cache before the service call starts;
`createItem` and `copyItem` invoke the service with the unmodified cache
and install the returned entity only after success. On success the
optimistic entry of update/toggle is replaced by the entity the service
returned, create appends the returned entity, and copy splices the
returned entity in right after the source entry (appending when the
source is not in the cache), so the returned entity is in the cache
after every successful copy. -/
theorem cacheLayer_mutation_order (cache : List ShoppingItem) (id text : String)
    (nowOpt : Nat) (svcItem : Except ServiceError ShoppingItem)
    (svcUnit : Except ServiceError Unit) (u : ShoppingItem) :
    (UseShoppingItems.updateItem cache id text nowOpt svcItem).cacheAtServiceCall =
      UseShoppingItems.applyOptimisticText cache id text nowOpt ∧
    (UseShoppingItems.toggleComplete cache id nowOpt svcItem).cacheAtServiceCall =
      UseShoppingItems.applyOptimisticToggle cache id nowOpt ∧
    (UseShoppingItems.deleteItem cache id svcUnit).cacheAtServiceCall =
      cache.filter (fun item => item.id != id) ∧
    (UseShoppingItems.createItem cache svcItem).cacheAtServiceCall = cache ∧
    (UseShoppingItems.copyItem cache id svcItem).cacheAtServiceCall = cache ∧
    (UseShoppingItems.updateItem cache id text nowOpt (Except.ok u)).cacheAfter =
      (UseShoppingItems.applyOptimisticText cache id text nowOpt).map
        (fun item => if item.id == id then u else item) ∧
    (UseShoppingItems.toggleComplete cache id nowOpt (Except.ok u)).cacheAfter =
      (UseShoppingItems.applyOptimisticToggle cache id nowOpt).map
        (fun item => if item.id == id then u else item) ∧
    (UseShoppingItems.createItem cache (Except.ok u)).cacheAfter =
      UseShoppingItems.appendItem cache u ∧
    (UseShoppingItems.copyItem cache id (Except.ok u)).cacheAfter =
      (match cache.findIdx? (fun item => item.id == id) with
       | none => cache ++ [u]
       | some sourceIndex =>
         cache.take (sourceIndex + 1) ++ [u] ++ cache.drop (sourceIndex + 1)) ∧
    u ∈ (UseShoppingItems.copyItem cache id (Except.ok u)).cacheAfter := by
  refine ⟨rfl, rfl, rfl, rfl, rfl, rfl, rfl, rfl, rfl, ?_⟩
  cases hidx : cache.findIdx? (fun item => item.id == id) with
  | none => simp [UseShoppingItems.copyItem, hidx]
  | some sourceIndex => simp [UseShoppingItems.copyItem, hidx]

/-- C5: when the underlying service call of any of the five hook
mutations rejects with `e`, the cache after rollback equals the cache
before the mutation was attempted, and the error is surfaced unchanged. -/
theorem cacheLayer_rollback_exact (cache : List ShoppingItem) (id text : String)
    (nowOpt : Nat) (e : ServiceError) :
    (UseShoppingItems.updateItem cache id text nowOpt (Except.error e)).cacheAfter = cache ∧
    (UseShoppingItems.updateItem cache id text nowOpt (Except.error e)).result = Except.error e ∧
    (UseShoppingItems.toggleComplete cache id nowOpt (Except.error e)).cacheAfter = cache ∧
    (UseShoppingItems.toggleComplete cache id nowOpt (Except.error e)).result = Except.error e ∧
    (UseShoppingItems.deleteItem cache id (Except.error e)).cacheAfter = cache ∧
    (UseShoppingItems.deleteItem cache id (Except.error e)).result = Except.error e ∧
    (UseShoppingItems.createItem cache (Except.error e)).cacheAfter = cache ∧
    (UseShoppingItems.createItem cache (Except.error e)).result = Except.error e ∧
    (UseShoppingItems.copyItem cache id (Except.error e)).cacheAfter = cache ∧
    (UseShoppingItems.copyItem cache id (Except.error e)).result = Except.error e :=
  ⟨rfl, rfl, rfl, rfl, rfl, rfl, rfl, rfl, rfl, rfl⟩

/-- C4 counterexample: from a settings row carrying a non-null override
map, explicitly selecting the non-custom preset "retro" leaves the
override map stored unchanged instead of clearing it to null. -/
theorem updateTheme_keeps_overrides_counterexample :
    "retro" ≠ "custom" ∧
    SettingsService.updateTheme overrideSettingsState "retro" 5 =
      (Except.ok { id := 1, themeId := "retro", customColors := some sampleColors,
                   createdAt := 0, updatedAt := 5 },
       { lists := [], items := [],
         settings := some { id := 1, themeId := "retro", customColors := some sampleColors,
                            createdAt := 0, updatedAt := 5 } }) ∧
    (some sampleColors : Option CustomColors) ≠ none := by
  refine ⟨?_, rfl, ?_⟩ <;> decide

/-- C4 (amended): `updateTheme` sets the selection identifier and
preserves the stored override map unchanged for every selection; the
override map is cleared only by `resetToDefault`, which also restores the
default identifier. -/
theorem updateSelection_preserves_overrides (lists : List ShoppingList)
    (items : List ShoppingItem) (s : AppSettings) (themeId : String) (now : Nat) :
    SettingsService.updateTheme ⟨lists, items, some s⟩ themeId now =
      (Except.ok { s with themeId := themeId, updatedAt := now },
       ⟨lists, items, some { s with themeId := themeId, updatedAt := now }⟩) ∧
    ({ s with themeId := themeId, updatedAt := now } : AppSettings).customColors =
      s.customColors ∧
    SettingsService.resetToDefault ⟨lists, items, some s⟩ now =
      (Except.ok { s with themeId := "default", customColors := none, updatedAt := now },
       ⟨lists, items,
        some { s with themeId := "default", customColors := none, updatedAt := now }⟩) :=
  ⟨rfl, rfl, rfl⟩

/-- C3: evaluation at the failing input — the V1 migration's DDL declares
the `name` and `text` columns `NOT NULL` with no length `CHECK` clause,
so the store created by V1 accepts any string for them, including the
empty name that the documented 1..100 bound must reject; the descending
index on `created_at` does exist. -/
theorem migrationV1_missing_length_checks :
    DatabaseService.tableColumn DatabaseService.migrationV1ListsTable "name" =
      some { name := "name", notNull := true, lenCheck := none } ∧
    DatabaseService.tableColumn DatabaseService.migrationV1ItemsTable "text" =
      some { name := "text", notNull := true, lenCheck := none } ∧
    (∀ s : String,
      DatabaseService.columnAcceptsText { name := "name", notNull := true, lenCheck := none } s
        = true) ∧
    DatabaseService.columnAcceptsText { name := "name", notNull := true, lenCheck := none } ""
      = true ∧
    { name := "idx_lists_created", table := "shopping_lists",
      columns := [{ column := "created_at", descending := true }] } ∈
      DatabaseService.migrationV1Indexes := by
  refine ⟨?_, ?_, fun s => rfl, rfl, ?_⟩
  · decide
  · decide
  · simp [DatabaseService.migrationV1Indexes]

/-- C1: for every input name whose trim is empty, Collection create
succeeds and returns the default literal "Shopping List" (never
rejected), while Collection update with the same input fails with a
`ValidationError` and leaves the store unchanged. -/
theorem list_name_validation_asymmetry (st : DBState) (name : String)
    (h : (jsTrim name).length = 0) (id newId : String) (now : Nat) :
    ShoppingListsService.create st name newId now =
      (Except.ok { id := newId, name := "Shopping List", createdAt := now, updatedAt := now },
       { st with lists := st.lists ++
          [{ id := newId, name := "Shopping List", createdAt := now, updatedAt := now }] }) ∧
    ShoppingListsService.update st id name now =
      (Except.error (.validationError "List name cannot be empty" "name" name), st) := by
  constructor
  · simp [ShoppingListsService.create, ShoppingListsService.validateListName, h]
  · simp [ShoppingListsService.update, ShoppingListsService.validateListName, h]

/-- C1 witness: instantiated at the whitespace-only name "   ". -/
theorem list_name_validation_asymmetry_witness :
    (jsTrim "   ").length = 0 ∧
    (ShoppingListsService.create sampleState "   " "list-2" 7 =
      (Except.ok { id := "list-2", name := "Shopping List", createdAt := 7, updatedAt := 7 },
       { sampleState with lists := sampleState.lists ++
          [{ id := "list-2", name := "Shopping List", createdAt := 7, updatedAt := 7 }] }) ∧
     ShoppingListsService.update sampleState "list-1" "   " 7 =
      (Except.error (.validationError "List name cannot be empty" "name" "   "),
       sampleState)) :=
  ⟨by decide, list_name_validation_asymmetry sampleState "   " (by decide) "list-1" "list-2" 7⟩

/-- C6: for every collection id and every text whose trim is empty,
Record create fails with a `ValidationError` on field "text" and leaves
the store unchanged — no default substitution for record text. -/
theorem item_create_rejects_empty_text (st : DBState) (listId text newId : String)
    (now : Nat) (h : (jsTrim text).length = 0) :
    ShoppingItemsService.create st listId text newId now =
      (Except.error (.validationError "Item text cannot be empty" "text" text), st) := by
  simp [ShoppingItemsService.create, ShoppingItemsService.validateItemText, h]

/-- C6 witness: instantiated at the empty text against the sample store
(whose list "list-1" exists, so only validation can be the cause). -/
theorem item_create_rejects_empty_text_witness :
    (jsTrim "").length = 0 ∧
    ShoppingItemsService.create sampleState "list-1" "" "item-2" 9 =
      (Except.error (.validationError "Item text cannot be empty" "text" ""), sampleState) :=
  ⟨by decide, item_create_rejects_empty_text sampleState "list-1" "" "item-2" 9 (by decide)⟩

/-- C10: when the input is invalid (empty after trim or over the length
bound) and the referenced id resolves to nothing, Collection update,
Record update and Record create all fail with a `ValidationError`, never
a `NotFoundError`, because validation runs before the store is consulted;
the store is left unchanged. -/
theorem validation_precedes_existence (st : DBState)
    (id name text listId newId : String) (now : Nat)
    (hname : (jsTrim name).length = 0 ∨ 100 < (jsTrim name).length)
    (htext : (jsTrim text).length = 0 ∨ 500 < (jsTrim text).length)
    (_hlist : ShoppingListsService.getById st id = none)
    (_hitem : ShoppingItemsService.getById st id = none)
    (_hparent : ShoppingListsService.getById st listId = none) :
    (∃ m f v, ShoppingListsService.update st id name now =
      (Except.error (.validationError m f v), st)) ∧
    (∃ m f v, ShoppingItemsService.update st id text now =
      (Except.error (.validationError m f v), st)) ∧
    (∃ m f v, ShoppingItemsService.create st listId text newId now =
      (Except.error (.validationError m f v), st)) := by
  refine ⟨?_, ?_, ?_⟩
  · rcases hname with h | h
    · exact ⟨"List name cannot be empty", "name", name, by
        simp [ShoppingListsService.update, ShoppingListsService.validateListName, h]⟩
    · have h0 : ¬ (jsTrim name).length = 0 := by omega
      exact ⟨"List name cannot exceed 100 characters", "name", name, by
        simp [ShoppingListsService.update, ShoppingListsService.validateListName, h0, h]⟩
  · rcases htext with h | h
    · exact ⟨"Item text cannot be empty", "text", text, by
        simp [ShoppingItemsService.update, ShoppingItemsService.validateItemText, h]⟩
    · have h0 : ¬ (jsTrim text).length = 0 := by omega
      exact ⟨"Item text cannot exceed 500 characters", "text", text, by
        simp [ShoppingItemsService.update, ShoppingItemsService.validateItemText, h0, h]⟩
  · rcases htext with h | h
    · exact ⟨"Item text cannot be empty", "text", text, by
        simp [ShoppingItemsService.create, ShoppingItemsService.validateItemText, h]⟩
    · have h0 : ¬ (jsTrim text).length = 0 := by omega
      exact ⟨"Item text cannot exceed 500 characters", "text", text, by
        simp [ShoppingItemsService.create, ShoppingItemsService.validateItemText, h0, h]⟩

/-- C10 witness: instantiated at whitespace-only inputs and ids absent
from the empty store. -/
theorem validation_precedes_existence_witness :
    ((jsTrim " ").length = 0 ∨ 100 < (jsTrim " ").length) ∧
    ShoppingListsService.getById emptyState "missing" = none ∧
    ShoppingItemsService.getById emptyState "missing" = none ∧
    ShoppingListsService.getById emptyState "missing-list" = none ∧
    ((∃ m f v, ShoppingListsService.update emptyState "missing" " " 0 =
        (Except.error (.validationError m f v), emptyState)) ∧
     (∃ m f v, ShoppingItemsService.update emptyState "missing" " " 0 =
        (Except.error (.validationError m f v), emptyState)) ∧
     (∃ m f v, ShoppingItemsService.create emptyState "missing-list" " " "new" 0 =
        (Except.error (.validationError m f v), emptyState))) := by
  refine ⟨Or.inl (by decide), rfl, rfl, rfl, ?_⟩
  exact validation_precedes_existence emptyState "missing" " " " " "missing-list" "new" 0
    (Or.inl (by decide)) (Or.inl (by decide)) rfl rfl rfl

/-- An item found by id-lookup carries that id. -/
theorem getById_some_id (st : DBState) (id : String) (src : ShoppingItem)
    (h : ShoppingItemsService.getById st id = some src) : src.id = id := by
  have hp := List.find?_some h
  simpa using hp

/-- An `UPDATE ... WHERE id = ?` (an id-preserving map over the rows)
commutes with the id-lookup: the looked-up row is the updated one. -/
theorem find?_map_ite (l : List ShoppingItem) (id : String)
    (g : ShoppingItem → ShoppingItem) (hg : ∀ it, (g it).id = it.id)
    (it0 : ShoppingItem) (h : l.find? (fun it => it.id == id) = some it0) :
    (l.map (fun it => if it.id == id then g it else it)).find? (fun it => it.id == id)
      = some (g it0) := by
  induction l with
  | nil => simp at h
  | cons a l ih =>
    by_cases ha : (a.id == id) = true
    · rw [@List.find?_cons_of_pos ShoppingItem (fun it => it.id == id) a l ha] at h
      injection h with h2
      subst h2
      rw [List.map_cons, if_pos ha]
      exact @List.find?_cons_of_pos ShoppingItem (fun it => it.id == id) (g a)
        (List.map (fun it => if it.id == id then g it else it) l)
        (show ((g a).id == id) = true by rw [hg]; exact ha)
    · rw [@List.find?_cons_of_neg ShoppingItem (fun it => it.id == id) a l ha] at h
      rw [List.map_cons, if_neg ha]
      rw [@List.find?_cons_of_neg ShoppingItem (fun it => it.id == id) a
        (List.map (fun it => if it.id == id then g it else it) l) ha]
      exact ih h

/-- C7: for an existing source item, `copy` returns (and inserts) a new
item with the same `listId`, `text` and `completed`, the fresh id and
equal fresh timestamps, distinct from the source's id; for an absent
source id, `copy` fails with the "not found" error, store unchanged. -/
theorem copy_preserves_fields (st : DBState) (id newId : String) (now : Nat) :
    (∀ src, ShoppingItemsService.getById st id = some src → newId ≠ id →
      ShoppingItemsService.copy st id newId now =
        (Except.ok { id := newId, listId := src.listId, text := src.text,
                     completed := src.completed, createdAt := now, updatedAt := now },
         { st with items := st.items ++
            [{ id := newId, listId := src.listId, text := src.text,
               completed := src.completed, createdAt := now, updatedAt := now }] }) ∧
      newId ≠ src.id) ∧
    (ShoppingItemsService.getById st id = none →
      ShoppingItemsService.copy st id newId now =
        (Except.error (.notFoundError "Shopping item not found" "id" id), st)) := by
  constructor
  · intro src hsrc hfresh
    refine ⟨by simp [ShoppingItemsService.copy, hsrc], ?_⟩
    rw [getById_some_id st id src hsrc]
    exact hfresh
  · intro hnone
    simp [ShoppingItemsService.copy, hnone]

/-- C7 witness: copying the sample item, and copying an absent id. -/
theorem copy_preserves_fields_witness :
    ShoppingItemsService.getById sampleState "item-1" = some sampleItem ∧
    "item-2" ≠ "item-1" ∧
    (ShoppingItemsService.copy sampleState "item-1" "item-2" 5 =
      (Except.ok { id := "item-2", listId := sampleItem.listId, text := sampleItem.text,
                   completed := sampleItem.completed, createdAt := 5, updatedAt := 5 },
       { sampleState with items := sampleState.items ++
          [{ id := "item-2", listId := sampleItem.listId, text := sampleItem.text,
             completed := sampleItem.completed, createdAt := 5, updatedAt := 5 }] }) ∧
     "item-2" ≠ sampleItem.id) ∧
    (ShoppingItemsService.getById sampleState "zzz" = none ∧
     ShoppingItemsService.copy sampleState "zzz" "item-2" 5 =
      (Except.error (.notFoundError "Shopping item not found" "id" "zzz"), sampleState)) := by
  have h1 := (copy_preserves_fields sampleState "item-1" "item-2" 5).1 sampleItem rfl
    (by decide)
  have h2 := (copy_preserves_fields sampleState "zzz" "item-2" 5).2 rfl
  exact ⟨rfl, by decide, h1, rfl, h2⟩

/-- C8: toggling an existing item's completion twice in sequence restores
the original flag — the first call returns the flag negated, the second
(running on the store the first produced) returns the original flag. -/
theorem toggle_twice_restores (st : DBState) (id : String) (it0 : ShoppingItem)
    (h : ShoppingItemsService.getById st id = some it0) (now1 now2 : Nat) :
    ∃ st1 it1 it2,
      ShoppingItemsService.toggleComplete st id now1 = (Except.ok it1, st1) ∧
      (ShoppingItemsService.toggleComplete st1 id now2).1 = Except.ok it2 ∧
      it1.completed = !it0.completed ∧
      it2.completed = it0.completed := by
  refine ⟨{ st with items := st.items.map (fun it =>
      if it.id == id then { it with completed := !it0.completed, updatedAt := now1 }
      else it) },
    { it0 with completed := !it0.completed, updatedAt := now1 },
    { it0 with completed := !(!it0.completed), updatedAt := now2 }, ?_, ?_, rfl, ?_⟩
  · simp [ShoppingItemsService.toggleComplete, h]
  · have h2 : ShoppingItemsService.getById
        { st with items := st.items.map (fun it =>
            if it.id == id then { it with completed := !it0.completed, updatedAt := now1 }
            else it) } id
        = some { it0 with completed := !it0.completed, updatedAt := now1 } := by
      unfold ShoppingItemsService.getById at h ⊢
      exact find?_map_ite st.items id
        (fun it => { it with completed := !it0.completed, updatedAt := now1 })
        (fun it => rfl) it0 h
    unfold ShoppingItemsService.toggleComplete
    rw [h2]
  · simp

/-- C8 witness: toggling the sample item twice. -/
theorem toggle_twice_restores_witness :
    ShoppingItemsService.getById sampleState "item-1" = some sampleItem ∧
    (∃ st1 it1 it2,
      ShoppingItemsService.toggleComplete sampleState "item-1" 3 = (Except.ok it1, st1) ∧
      (ShoppingItemsService.toggleComplete st1 "item-1" 4).1 = Except.ok it2 ∧
      it1.completed = !sampleItem.completed ∧
      it2.completed = sampleItem.completed) :=
  ⟨rfl, toggle_twice_restores sampleState "item-1" sampleItem rfl 3 4⟩

/-- C9: `getAll` returns a permutation of all stored lists sorted by
`createdAt` descending, while `getByListId` returns a permutation of
exactly that list's items sorted by `createdAt` ascending. -/
theorem query_orderings_opposite (st : DBState) (listId : String) :
    (ShoppingListsService.getAll st).Pairwise (fun a b => b.createdAt ≤ a.createdAt) ∧
    (ShoppingListsService.getAll st).Perm st.lists ∧
    (ShoppingItemsService.getByListId st listId).Pairwise
      (fun a b => a.createdAt ≤ b.createdAt) ∧
    (ShoppingItemsService.getByListId st listId).Perm
      (st.items.filter (fun it => it.listId == listId)) := by
  refine ⟨?_, List.mergeSort_perm _ _, ?_, List.mergeSort_perm _ _⟩
  · unfold ShoppingListsService.getAll
    refine List.Pairwise.imp (fun hab => by simpa using hab)
      (List.sorted_mergeSort ?_ ?_ st.lists)
    · intro a b c hab hbc
      simp only [decide_eq_true_eq] at hab hbc ⊢
      omega
    · intro a b
      simp [Nat.le_total]
  · unfold ShoppingItemsService.getByListId
    refine List.Pairwise.imp (fun hab => by simpa using hab)
      (List.sorted_mergeSort ?_ ?_ (st.items.filter (fun it => it.listId == listId)))
    · intro a b c hab hbc
      simp only [decide_eq_true_eq] at hab hbc ⊢
      omega
    · intro a b
      simp [Nat.le_total]

end ShoppingApp
